import Mathlib

/-!
Shallow embedding of `src/ext.rs` of the `license` crate: three fact-group
value types (`Permissions`, `Conditions`, `Limitations`), the nineteen static
license records built by the `impl_ext!` macro, the `from_id_ext` lookup, and
the `Display` renderings, together with theorems about them.
-/

namespace LicenseExtSpec

/-- The permissions of the license (`struct Permissions`, five boolean
fields in declaration order). -/
structure Permissions where
  commercial_use : Bool
  distribution : Bool
  modification : Bool
  patent_rights : Bool
  private_use : Bool
deriving DecidableEq, Repr, Hashable

/-- The conditions of the license (`struct Conditions`, five boolean fields
in declaration order). -/
structure Conditions where
  disclose_sources : Bool
  document_changes : Bool
  license_and_copyright_notice : Bool
  network_use_is_distribution : Bool
  same_license : Bool
deriving DecidableEq, Repr, Hashable

/-- The limitations of the license (`struct Limitations`, four boolean
fields in declaration order). -/
structure Limitations where
  no_liability : Bool
  no_trademark_rights : Bool
  no_warranty : Bool
  no_patent_rights : Bool
deriving DecidableEq, Repr, Hashable

/-- The `Default` derive for `Permissions`: every field is `false`. -/
def Permissions.default : Permissions :=
  ⟨false, false, false, false, false⟩

/-- The `Default` derive for `Conditions`: every field is `false`. -/
def Conditions.default : Conditions :=
  ⟨false, false, false, false, false⟩

/-- The `Default` derive for `Limitations`: every field is `false`. -/
def Limitations.default : Limitations :=
  ⟨false, false, false, false⟩

/-- A static license record as seen through the `LicenseExt` trait object
returned by `from_id_ext`: the three fact groups produced by its
`permissions`, `conditions` and `limitations` methods. -/
structure LicenseExt where
  permissions : Permissions
  conditions : Conditions
  limitations : Limitations
deriving DecidableEq, Repr

/-- `impl LicenseExt for AFL_3_0` from the `impl_ext!` invocation. -/
def AFL_3_0 : LicenseExt where
  permissions := { Permissions.default with
    commercial_use := true, distribution := true, modification := true,
    patent_rights := true, private_use := true }
  conditions := { Conditions.default with
    document_changes := true, license_and_copyright_notice := true }
  limitations := { Limitations.default with
    no_liability := true, no_trademark_rights := true, no_warranty := true }

/-- `impl LicenseExt for AGPL_3_0_only` from the `impl_ext!` invocation. -/
def AGPL_3_0_only : LicenseExt where
  permissions := { Permissions.default with
    commercial_use := true, distribution := true, modification := true,
    patent_rights := true, private_use := true }
  conditions := { Conditions.default with
    disclose_sources := true, document_changes := true,
    license_and_copyright_notice := true, network_use_is_distribution := true,
    same_license := true }
  limitations := { Limitations.default with
    no_liability := true, no_warranty := true }

/-- `impl LicenseExt for Apache_2_0` from the `impl_ext!` invocation. -/
def Apache_2_0 : LicenseExt where
  permissions := { Permissions.default with
    commercial_use := true, distribution := true, modification := true,
    patent_rights := true, private_use := true }
  conditions := { Conditions.default with
    document_changes := true, license_and_copyright_notice := true }
  limitations := { Limitations.default with
    no_liability := true, no_trademark_rights := true, no_warranty := true }

/-- `impl LicenseExt for BSD_0` from the `impl_ext!` invocation. -/
def BSD_0 : LicenseExt where
  permissions := { Permissions.default with
    commercial_use := true, distribution := true, modification := true,
    private_use := true }
  conditions := Conditions.default
  limitations := { Limitations.default with
    no_liability := true, no_warranty := true }

/-- `impl LicenseExt for BSD_2_Clause` from the `impl_ext!` invocation. -/
def BSD_2_Clause : LicenseExt where
  permissions := { Permissions.default with
    commercial_use := true, distribution := true, modification := true,
    private_use := true }
  conditions := { Conditions.default with license_and_copyright_notice := true }
  limitations := { Limitations.default with
    no_liability := true, no_warranty := true }

/-- `impl LicenseExt for BSD_3_Clause` from the `impl_ext!` invocation. -/
def BSD_3_Clause : LicenseExt where
  permissions := { Permissions.default with
    commercial_use := true, distribution := true, modification := true,
    private_use := true }
  conditions := { Conditions.default with license_and_copyright_notice := true }
  limitations := { Limitations.default with
    no_liability := true, no_warranty := true }

/-- `impl LicenseExt for BSD_3_Clause_Clear` from the `impl_ext!` invocation. -/
def BSD_3_Clause_Clear : LicenseExt where
  permissions := { Permissions.default with
    commercial_use := true, distribution := true, modification := true,
    private_use := true }
  conditions := { Conditions.default with license_and_copyright_notice := true }
  limitations := { Limitations.default with
    no_liability := true, no_warranty := true, no_patent_rights := true }

/-- `impl LicenseExt for BSL_1_0` from the `impl_ext!` invocation. -/
def BSL_1_0 : LicenseExt where
  permissions := { Permissions.default with
    commercial_use := true, distribution := true, modification := true,
    private_use := true }
  conditions := { Conditions.default with license_and_copyright_notice := true }
  limitations := { Limitations.default with
    no_liability := true, no_warranty := true }

/-- `impl LicenseExt for CC0_1_0` from the `impl_ext!` invocation. -/
def CC0_1_0 : LicenseExt where
  permissions := { Permissions.default with
    commercial_use := true, distribution := true, modification := true,
    private_use := true }
  conditions := Conditions.default
  limitations := { Limitations.default with
    no_liability := true, no_trademark_rights := true, no_warranty := true,
    no_patent_rights := true }

/-- `impl LicenseExt for ECL_2_0` from the `impl_ext!` invocation. -/
def ECL_2_0 : LicenseExt where
  permissions := { Permissions.default with
    commercial_use := true, distribution := true, modification := true,
    patent_rights := true, private_use := true }
  conditions := { Conditions.default with
    document_changes := true, license_and_copyright_notice := true }
  limitations := { Limitations.default with
    no_liability := true, no_trademark_rights := true, no_warranty := true }

/-- `impl LicenseExt for GPL_3_0_only` from the `impl_ext!` invocation. -/
def GPL_3_0_only : LicenseExt where
  permissions := { Permissions.default with
    commercial_use := true, distribution := true, modification := true,
    patent_rights := true, private_use := true }
  conditions := { Conditions.default with
    disclose_sources := true, document_changes := true,
    license_and_copyright_notice := true, same_license := true }
  limitations := { Limitations.default with
    no_liability := true, no_warranty := true }

/-- `impl LicenseExt for LGPL_3_0_only` from the `impl_ext!` invocation. -/
def LGPL_3_0_only : LicenseExt where
  permissions := { Permissions.default with
    commercial_use := true, distribution := true, modification := true,
    patent_rights := true, private_use := true }
  conditions := { Conditions.default with
    disclose_sources := true, document_changes := true,
    license_and_copyright_notice := true, same_license := true }
  limitations := { Limitations.default with
    no_liability := true, no_warranty := true }

/-- `impl LicenseExt for MIT` from the `impl_ext!` invocation. -/
def MIT : LicenseExt where
  permissions := { Permissions.default with
    commercial_use := true, distribution := true, modification := true,
    private_use := true }
  conditions := { Conditions.default with license_and_copyright_notice := true }
  limitations := { Limitations.default with
    no_liability := true, no_warranty := true }

/-- `impl LicenseExt for MPL_2_0` from the `impl_ext!` invocation. -/
def MPL_2_0 : LicenseExt where
  permissions := { Permissions.default with
    commercial_use := true, distribution := true, modification := true,
    patent_rights := true, private_use := true }
  conditions := { Conditions.default with
    disclose_sources := true, license_and_copyright_notice := true,
    same_license := true }
  limitations := { Limitations.default with
    no_liability := true, no_trademark_rights := true, no_warranty := true }

/-- `impl LicenseExt for MS_PL` from the `impl_ext!` invocation. -/
def MS_PL : LicenseExt where
  permissions := { Permissions.default with
    commercial_use := true, distribution := true, modification := true,
    patent_rights := true, private_use := true }
  conditions := { Conditions.default with license_and_copyright_notice := true }
  limitations := { Limitations.default with
    no_trademark_rights := true, no_warranty := true }

/-- `impl LicenseExt for OSL_3_0` from the `impl_ext!` invocation. -/
def OSL_3_0 : LicenseExt where
  permissions := { Permissions.default with
    commercial_use := true, distribution := true, modification := true,
    patent_rights := true, private_use := true }
  conditions := { Conditions.default with
    disclose_sources := true, document_changes := true,
    license_and_copyright_notice := true, network_use_is_distribution := true,
    same_license := true }
  limitations := { Limitations.default with
    no_liability := true, no_trademark_rights := true, no_warranty := true }

/-- `impl LicenseExt for Unlicense` from the `impl_ext!` invocation. -/
def Unlicense : LicenseExt where
  permissions := { Permissions.default with
    commercial_use := true, distribution := true, modification := true,
    private_use := true }
  conditions := Conditions.default
  limitations := { Limitations.default with
    no_liability := true, no_warranty := true }

/-- `impl LicenseExt for WTFPL` from the `impl_ext!` invocation. -/
def WTFPL : LicenseExt where
  permissions := { Permissions.default with
    commercial_use := true, distribution := true, modification := true,
    private_use := true }
  conditions := Conditions.default
  limitations := Limitations.default

/-- `impl LicenseExt for Zlib` from the `impl_ext!` invocation. -/
def Zlib : LicenseExt where
  permissions := { Permissions.default with
    commercial_use := true, distribution := true, modification := true,
    private_use := true }
  conditions := { Conditions.default with
    document_changes := true, license_and_copyright_notice := true }
  limitations := { Limitations.default with
    no_liability := true, no_warranty := true }

/-- `pub fn from_id_ext(id: &str) -> Option<&'static dyn LicenseExt>`:
exact string match against the nineteen known identifiers. -/
def from_id_ext (id : String) : Option LicenseExt :=
  match id with
  | "AFL-3.0" => some AFL_3_0
  | "AGPL-3.0-only" => some AGPL_3_0_only
  | "Apache-2.0" => some Apache_2_0
  | "0BSD" => some BSD_0
  | "BSD-2-Clause" => some BSD_2_Clause
  | "BSD-3-Clause" => some BSD_3_Clause
  | "BSD-3-Clause-Clear" => some BSD_3_Clause_Clear
  | "BSL-1.0" => some BSL_1_0
  | "CC0-1.0" => some CC0_1_0
  | "ECL-2.0" => some ECL_2_0
  | "GPL-3.0-only" => some GPL_3_0_only
  | "LGPL-3.0-only" => some LGPL_3_0_only
  | "MIT" => some MIT
  | "MPL-2.0" => some MPL_2_0
  | "MS-PL" => some MS_PL
  | "OSL-3.0" => some OSL_3_0
  | "Unlicense" => some Unlicense
  | "WTFPL" => some WTFPL
  | "Zlib" => some Zlib
  | _ => none

/-- The closed set of identifiers recognized by `from_id_ext`, in the order
of the match arms (the set documented in the spec). -/
def supportedIds : List String :=
  ["AFL-3.0", "AGPL-3.0-only", "Apache-2.0", "0BSD", "BSD-2-Clause",
   "BSD-3-Clause", "BSD-3-Clause-Clear", "BSL-1.0", "CC0-1.0", "ECL-2.0",
   "GPL-3.0-only", "LGPL-3.0-only", "MIT", "MPL-2.0", "MS-PL", "OSL-3.0",
   "Unlicense", "WTFPL", "Zlib"]

/-- `Formatter::write_str` backed by a `String` buffer: appends to the
buffer and never fails. -/
def writeStr (f s : String) : Except Unit String :=
  Except.ok (f ++ s)

/-- `impl Display for Permissions`: the `fmt` method, threading the
formatter state and propagating any `write_str` failure as `?` does. -/
def Permissions.fmtCore (p : Permissions) (f : String) : Except Unit String :=
  (if p.commercial_use then writeStr f "- May be used for commercial purposes.\n" else Except.ok f).bind fun f =>
  (if p.distribution then writeStr f "- May be distributed.\n" else Except.ok f).bind fun f =>
  (if p.modification then writeStr f "- May be modified.\n" else Except.ok f).bind fun f =>
  (if p.patent_rights then writeStr f "- Provides an express grant of patent rights from contributors.\n" else Except.ok f).bind fun f =>
  (if p.private_use then writeStr f "- May be used for private purposes.\n" else Except.ok f).bind fun f =>
  Except.ok f

/-- The string produced by `Display for Permissions` on an empty buffer. -/
def Permissions.fmt (p : Permissions) : String :=
  (if p.commercial_use then "- May be used for commercial purposes.\n" else "") ++
  (if p.distribution then "- May be distributed.\n" else "") ++
  (if p.modification then "- May be modified.\n" else "") ++
  (if p.patent_rights then "- Provides an express grant of patent rights from contributors.\n" else "") ++
  (if p.private_use then "- May be used for private purposes.\n" else "")

/-- `impl Display for Conditions`: the `fmt` method, threading the
formatter state and propagating any `write_str` failure as `?` does. -/
def Conditions.fmtCore (c : Conditions) (f : String) : Except Unit String :=
  (if c.disclose_sources then writeStr f "- Source code must be made available when the software is distributed.\n" else Except.ok f).bind fun f =>
  (if c.document_changes then writeStr f "- Changes made to the code must be documented.\n" else Except.ok f).bind fun f =>
  (if c.license_and_copyright_notice then writeStr f "- The license and copyright notice must be included with the software.\n" else Except.ok f).bind fun f =>
  (if c.network_use_is_distribution then writeStr f "- Users who interact with the software via network are given the right to receive a copy of the source code.\n" else Except.ok f).bind fun f =>
  (if c.same_license then writeStr f "- Modifications must be released under the same license.\n" else Except.ok f).bind fun f =>
  Except.ok f

/-- The string produced by `Display for Conditions` on an empty buffer. -/
def Conditions.fmt (c : Conditions) : String :=
  (if c.disclose_sources then "- Source code must be made available when the software is distributed.\n" else "") ++
  (if c.document_changes then "- Changes made to the code must be documented.\n" else "") ++
  (if c.license_and_copyright_notice then "- The license and copyright notice must be included with the software.\n" else "") ++
  (if c.network_use_is_distribution then "- Users who interact with the software via network are given the right to receive a copy of the source code.\n" else "") ++
  (if c.same_license then "- Modifications must be released under the same license.\n" else "")

/-- `impl Display for Limitations`: the `fmt` method, threading the
formatter state and propagating any `write_str` failure as `?` does. -/
def Limitations.fmtCore (l : Limitations) (f : String) : Except Unit String :=
  (if l.no_liability then writeStr f "- Includes a limitation of liability.\n" else Except.ok f).bind fun f =>
  (if l.no_trademark_rights then writeStr f "- Does not grant trademark rights.\n" else Except.ok f).bind fun f =>
  (if l.no_warranty then writeStr f "- Does not provide any warranty.\n" else Except.ok f).bind fun f =>
  (if l.no_patent_rights then writeStr f "- Does not provide any rights in the patents of contributors.\n" else Except.ok f).bind fun f =>
  Except.ok f

/-- The string produced by `Display for Limitations` on an empty buffer. -/
def Limitations.fmt (l : Limitations) : String :=
  (if l.no_liability then "- Includes a limitation of liability.\n" else "") ++
  (if l.no_trademark_rights then "- Does not grant trademark rights.\n" else "") ++
  (if l.no_warranty then "- Does not provide any warranty.\n" else "") ++
  (if l.no_patent_rights then "- Does not provide any rights in the patents of contributors.\n" else "")

/-- The five permission facts paired with their bullet lines, in the field
declaration order used by `Display for Permissions`. -/
def permLines : List ((Permissions → Bool) × String) :=
  [(Permissions.commercial_use, "- May be used for commercial purposes.\n"),
   (Permissions.distribution, "- May be distributed.\n"),
   (Permissions.modification, "- May be modified.\n"),
   (Permissions.patent_rights, "- Provides an express grant of patent rights from contributors.\n"),
   (Permissions.private_use, "- May be used for private purposes.\n")]

/-- The five condition facts paired with their bullet lines, in the field
declaration order used by `Display for Conditions`. -/
def condLines : List ((Conditions → Bool) × String) :=
  [(Conditions.disclose_sources, "- Source code must be made available when the software is distributed.\n"),
   (Conditions.document_changes, "- Changes made to the code must be documented.\n"),
   (Conditions.license_and_copyright_notice, "- The license and copyright notice must be included with the software.\n"),
   (Conditions.network_use_is_distribution, "- Users who interact with the software via network are given the right to receive a copy of the source code.\n"),
   (Conditions.same_license, "- Modifications must be released under the same license.\n")]

/-- The four limitation facts paired with their bullet lines, in the field
declaration order used by `Display for Limitations`. -/
def limLines : List ((Limitations → Bool) × String) :=
  [(Limitations.no_liability, "- Includes a limitation of liability.\n"),
   (Limitations.no_trademark_rights, "- Does not grant trademark rights.\n"),
   (Limitations.no_warranty, "- Does not provide any warranty.\n"),
   (Limitations.no_patent_rights, "- Does not provide any rights in the patents of contributors.\n")]

/-- All fourteen bullet lines, by group and declared fact order. -/
def allFactLines : List String :=
  permLines.map Prod.snd ++ condLines.map Prod.snd ++ limLines.map Prod.snd

/-- The comparison on `bool` used by the derived `Ord` impls:
`false < true`. -/
def cmpBool : Bool → Bool → Ordering
  | false, false => Ordering.eq
  | false, true => Ordering.lt
  | true, false => Ordering.gt
  | true, true => Ordering.eq

/-- The derived `Ord` for `Permissions`: lexicographic comparison of the
boolean fields in declaration order. -/
def Permissions.cmp (a b : Permissions) : Ordering :=
  (cmpBool a.commercial_use b.commercial_use).then
    ((cmpBool a.distribution b.distribution).then
      ((cmpBool a.modification b.modification).then
        ((cmpBool a.patent_rights b.patent_rights).then
          (cmpBool a.private_use b.private_use))))

/-- The derived `Ord` for `Conditions`: lexicographic comparison of the
boolean fields in declaration order. -/
def Conditions.cmp (a b : Conditions) : Ordering :=
  (cmpBool a.disclose_sources b.disclose_sources).then
    ((cmpBool a.document_changes b.document_changes).then
      ((cmpBool a.license_and_copyright_notice b.license_and_copyright_notice).then
        ((cmpBool a.network_use_is_distribution b.network_use_is_distribution).then
          (cmpBool a.same_license b.same_license))))

/-- The derived `Ord` for `Limitations`: lexicographic comparison of the
boolean fields in declaration order. -/
def Limitations.cmp (a b : Limitations) : Ordering :=
  (cmpBool a.no_liability b.no_liability).then
    ((cmpBool a.no_trademark_rights b.no_trademark_rights).then
      ((cmpBool a.no_warranty b.no_warranty).then
        (cmpBool a.no_patent_rights b.no_patent_rights)))

/-- Both boolean values. -/
def allBools : List Bool := [false, true]

/-- Every `Permissions` value (32 of them). -/
def allPermissions : List Permissions :=
  allBools.flatMap fun a => allBools.flatMap fun b => allBools.flatMap fun c =>
    allBools.flatMap fun d => allBools.map fun e => ⟨a, b, c, d, e⟩

/-- Every `Conditions` value (32 of them). -/
def allConditions : List Conditions :=
  allBools.flatMap fun a => allBools.flatMap fun b => allBools.flatMap fun c =>
    allBools.flatMap fun d => allBools.map fun e => ⟨a, b, c, d, e⟩

/-- Every `Limitations` value (16 of them). -/
def allLimitations : List Limitations :=
  allBools.flatMap fun a => allBools.flatMap fun b => allBools.flatMap fun c =>
    allBools.map fun d => ⟨a, b, c, d⟩

instance : Fintype Permissions where
  elems := ⟨↑allPermissions, by decide⟩
  complete := by
    rintro ⟨a, b, c, d, e⟩
    cases a <;> cases b <;> cases c <;> cases d <;> cases e <;> decide

instance : Fintype Conditions where
  elems := ⟨↑allConditions, by decide⟩
  complete := by
    rintro ⟨a, b, c, d, e⟩
    cases a <;> cases b <;> cases c <;> cases d <;> cases e <;> decide

instance : Fintype Limitations where
  elems := ⟨↑allLimitations, by decide⟩
  complete := by
    rintro ⟨a, b, c, d⟩
    cases a <;> cases b <;> cases c <;> cases d <;> decide

/-- The per-identifier fact table transcribed from the spec (columns P, C, L
of the table in spec §6, fields in the §3 declaration order). This is the
spec-side description of the catalog, kept separate from the records built
from the source so the two can be compared. -/
def specTable : List (String × LicenseExt) :=
  [("AFL-3.0", ⟨⟨true, true, true, true, true⟩, ⟨false, true, true, false, false⟩, ⟨true, true, true, false⟩⟩),
   ("AGPL-3.0-only", ⟨⟨true, true, true, true, true⟩, ⟨true, true, true, true, true⟩, ⟨true, false, true, false⟩⟩),
   ("Apache-2.0", ⟨⟨true, true, true, true, true⟩, ⟨false, true, true, false, false⟩, ⟨true, true, true, false⟩⟩),
   ("0BSD", ⟨⟨true, true, true, false, true⟩, ⟨false, false, false, false, false⟩, ⟨true, false, true, false⟩⟩),
   ("BSD-2-Clause", ⟨⟨true, true, true, false, true⟩, ⟨false, false, true, false, false⟩, ⟨true, false, true, false⟩⟩),
   ("BSD-3-Clause", ⟨⟨true, true, true, false, true⟩, ⟨false, false, true, false, false⟩, ⟨true, false, true, false⟩⟩),
   ("BSD-3-Clause-Clear", ⟨⟨true, true, true, false, true⟩, ⟨false, false, true, false, false⟩, ⟨true, false, true, true⟩⟩),
   ("BSL-1.0", ⟨⟨true, true, true, false, true⟩, ⟨false, false, true, false, false⟩, ⟨true, false, true, false⟩⟩),
   ("CC0-1.0", ⟨⟨true, true, true, false, true⟩, ⟨false, false, false, false, false⟩, ⟨true, true, true, true⟩⟩),
   ("ECL-2.0", ⟨⟨true, true, true, true, true⟩, ⟨false, true, true, false, false⟩, ⟨true, true, true, false⟩⟩),
   ("GPL-3.0-only", ⟨⟨true, true, true, true, true⟩, ⟨true, true, true, false, true⟩, ⟨true, false, true, false⟩⟩),
   ("LGPL-3.0-only", ⟨⟨true, true, true, true, true⟩, ⟨true, true, true, false, true⟩, ⟨true, false, true, false⟩⟩),
   ("MIT", ⟨⟨true, true, true, false, true⟩, ⟨false, false, true, false, false⟩, ⟨true, false, true, false⟩⟩),
   ("MPL-2.0", ⟨⟨true, true, true, true, true⟩, ⟨true, false, true, false, true⟩, ⟨true, true, true, false⟩⟩),
   ("MS-PL", ⟨⟨true, true, true, true, true⟩, ⟨false, false, true, false, false⟩, ⟨false, true, true, false⟩⟩),
   ("OSL-3.0", ⟨⟨true, true, true, true, true⟩, ⟨true, true, true, true, true⟩, ⟨true, true, true, false⟩⟩),
   ("Unlicense", ⟨⟨true, true, true, false, true⟩, ⟨false, false, false, false, false⟩, ⟨true, false, true, false⟩⟩),
   ("WTFPL", ⟨⟨true, true, true, false, true⟩, ⟨false, false, false, false, false⟩, ⟨false, false, false, false⟩⟩),
   ("Zlib", ⟨⟨true, true, true, false, true⟩, ⟨false, true, true, false, false⟩, ⟨true, false, true, false⟩⟩)]

/-- C1: for every one of the 19 supported identifiers, `from_id_ext`
returns a non-empty result whose record agrees with the spec table entry on
all 14 facts (the record equality makes every accessor agree with the
table: true exactly when the fact is listed, false otherwise). -/
theorem from_id_ext_matches_specTable :
    ∀ pr ∈ specTable, from_id_ext pr.1 = some pr.2 := by decide

/-- Witness for C1: the lookup of "MIT" agrees with its spec table row. -/
theorem from_id_ext_matches_specTable_witness :
    from_id_ext "MIT" = some ⟨⟨true, true, true, false, true⟩,
      ⟨false, false, true, false, false⟩, ⟨true, false, true, false⟩⟩ :=
  from_id_ext_matches_specTable ("MIT", ⟨⟨true, true, true, false, true⟩,
    ⟨false, false, true, false, false⟩, ⟨true, false, true, false⟩⟩) (by decide)

/-- C2: every string that is not exactly one of the 19 identifiers is
mapped to `none` by `from_id_ext` (matching is exact and case-sensitive);
in particular the near-misses "MIT " (trailing space), "mit", "GPL-2.0"
and "" all yield `none`. -/
theorem from_id_ext_unknown_none :
    (∀ s : String, s ∉ supportedIds → from_id_ext s = none) ∧
    from_id_ext "MIT " = none ∧ from_id_ext "mit" = none ∧
    from_id_ext "GPL-2.0" = none ∧ from_id_ext "" = none := by
  refine ⟨?_, by decide, by decide, by decide, by decide⟩
  intro s hs
  unfold from_id_ext
  split <;> simp_all [supportedIds]

/-- Witness for C2: the unsupported identifier "GPL-2.0" yields `none`. -/
theorem from_id_ext_unknown_none_witness : from_id_ext "GPL-2.0" = none :=
  from_id_ext_unknown_none.1 "GPL-2.0" (by decide)

/-- C4: the default-constructed value of each fact group has every boolean
fact equal to `false`, and its rendering is the empty string. -/
theorem default_all_false_renders_empty :
    Permissions.default.commercial_use = false ∧
    Permissions.default.distribution = false ∧
    Permissions.default.modification = false ∧
    Permissions.default.patent_rights = false ∧
    Permissions.default.private_use = false ∧
    Conditions.default.disclose_sources = false ∧
    Conditions.default.document_changes = false ∧
    Conditions.default.license_and_copyright_notice = false ∧
    Conditions.default.network_use_is_distribution = false ∧
    Conditions.default.same_license = false ∧
    Limitations.default.no_liability = false ∧
    Limitations.default.no_trademark_rights = false ∧
    Limitations.default.no_warranty = false ∧
    Limitations.default.no_patent_rights = false ∧
    Permissions.default.fmt = "" ∧
    Conditions.default.fmt = "" ∧
    Limitations.default.fmt = "" := by decide

/-- C6: `from_id_ext` is deterministic: equal input strings give equal
results (hence equal records and equal values of all 14 accessors); as a
Lean function of its input it has no observable state to change. -/
theorem from_id_ext_deterministic :
    ∀ s t : String, s = t → from_id_ext s = from_id_ext t :=
  fun _ _ h => congrArg from_id_ext h

/-- Witness for C6: the two lookups of "MIT" agree. -/
theorem from_id_ext_deterministic_witness :
    from_id_ext "MIT" = from_id_ext "MIT" :=
  from_id_ext_deterministic "MIT" "MIT" rfl

/-- C9: every supported identifier yields a record whose permissions have
commercial_use, distribution, modification and private_use all true, while
patent_rights takes both values across the catalog (false for "MIT", true
for "Apache-2.0"), so it is the only permission fact that varies. -/
theorem base_permissions_always_true :
    (∀ id ∈ supportedIds,
      ((from_id_ext id).map fun r =>
        r.permissions.commercial_use && r.permissions.distribution &&
        r.permissions.modification && r.permissions.private_use) = some true) ∧
    ((from_id_ext "MIT").map fun r => r.permissions.patent_rights) = some false ∧
    ((from_id_ext "Apache-2.0").map fun r => r.permissions.patent_rights) = some true := by
  decide

/-- Witness for C9: the four base permissions hold for "MIT". -/
theorem base_permissions_always_true_witness :
    ((from_id_ext "MIT").map fun r =>
      r.permissions.commercial_use && r.permissions.distribution &&
      r.permissions.modification && r.permissions.private_use) = some true :=
  base_permissions_always_true.1 "MIT" (by decide)

/-- C10: for every supported identifier, the returned record never has both
the permission patent_rights and the limitation no_patent_rights true. -/
theorem patent_facts_never_both :
    ∀ id ∈ supportedIds,
      ((from_id_ext id).map fun r =>
        r.permissions.patent_rights && r.limitations.no_patent_rights) ≠ some true := by
  decide

/-- Witness for C10: the record for "Apache-2.0" does not carry both
patent facts. -/
theorem patent_facts_never_both_witness :
    ((from_id_ext "Apache-2.0").map fun r =>
      r.permissions.patent_rights && r.limitations.no_patent_rights) ≠ some true :=
  patent_facts_never_both "Apache-2.0" (by decide)

set_option maxRecDepth 8000 in
/-- C3: for every value of each fact group, the rendering is exactly the
concatenation, in the fixed field-declaration order, of the bullet line of
each true fact, false facts omitted; in particular an all-false group
renders as the empty string and the emitted order is the same for every
subset of true facts. -/
theorem fmt_lists_true_facts_in_order :
    (∀ p : Permissions,
      p.fmt = String.join (permLines.filterMap fun fl => if fl.1 p then some fl.2 else none)) ∧
    (∀ c : Conditions,
      c.fmt = String.join (condLines.filterMap fun fl => if fl.1 c then some fl.2 else none)) ∧
    (∀ l : Limitations,
      l.fmt = String.join (limLines.filterMap fun fl => if fl.1 l then some fl.2 else none)) := by
  refine ⟨fun p => ?_, fun c => ?_, fun l => ?_⟩
  · rcases p with ⟨a, b, c, d, e⟩
    cases a <;> cases b <;> cases c <;> cases d <;> cases e <;> rfl
  · rcases c with ⟨a, b, c, d, e⟩
    cases a <;> cases b <;> cases c <;> cases d <;> cases e <;> rfl
  · rcases l with ⟨a, b, c, d⟩
    cases a <;> cases b <;> cases c <;> cases d <;> rfl

set_option maxRecDepth 8000 in
/-- C7: the accessors and renderings are total and cannot fail: for every
fact-group value the formatter-threading rendering returns `ok` on every
buffer (the error branch is unreachable), and on the empty buffer its value
is the total pure rendering. -/
theorem render_total_never_fails :
    (∀ (p : Permissions) (f : String), ∃ s, Permissions.fmtCore p f = Except.ok s) ∧
    (∀ (c : Conditions) (f : String), ∃ s, Conditions.fmtCore c f = Except.ok s) ∧
    (∀ (l : Limitations) (f : String), ∃ s, Limitations.fmtCore l f = Except.ok s) ∧
    (∀ p : Permissions, Permissions.fmtCore p "" = Except.ok p.fmt) ∧
    (∀ c : Conditions, Conditions.fmtCore c "" = Except.ok c.fmt) ∧
    (∀ l : Limitations, Limitations.fmtCore l "" = Except.ok l.fmt) := by
  refine ⟨fun p f => ?_, fun c f => ?_, fun l f => ?_, fun p => ?_, fun c => ?_, fun l => ?_⟩
  · rcases p with ⟨a, b, c, d, e⟩
    cases a <;> cases b <;> cases c <;> cases d <;> cases e <;> exact ⟨_, rfl⟩
  · rcases c with ⟨a, b, c, d, e⟩
    cases a <;> cases b <;> cases c <;> cases d <;> cases e <;> exact ⟨_, rfl⟩
  · rcases l with ⟨a, b, c, d⟩
    cases a <;> cases b <;> cases c <;> cases d <;> exact ⟨_, rfl⟩
  · rcases p with ⟨a, b, c, d, e⟩
    cases a <;> cases b <;> cases c <;> cases d <;> cases e <;> rfl
  · rcases c with ⟨a, b, c, d, e⟩
    cases a <;> cases b <;> cases c <;> cases d <;> cases e <;> rfl
  · rcases l with ⟨a, b, c, d⟩
    cases a <;> cases b <;> cases c <;> cases d <;> rfl

set_option maxRecDepth 8000 in
/-- C8: every bullet line of the three fact groups begins with "- " and
ends with a period followed by a newline (each is "- ", a middle text, then
".\n"), and the commercial_use fact renders exactly as
"- May be used for commercial purposes.\n". -/
theorem fact_lines_bullet_form :
    (∀ l ∈ allFactLines, ∃ mid, l = "- " ++ mid ++ ".\n") ∧
    Permissions.fmt ⟨true, false, false, false, false⟩ =
      "- May be used for commercial purposes.\n" := by
  constructor
  · intro l hl
    simp only [allFactLines, permLines, condLines, limLines, List.map,
      List.cons_append, List.nil_append, List.mem_cons,
      List.not_mem_nil, or_false] at hl
    rcases hl with rfl | rfl | rfl | rfl | rfl | rfl | rfl | rfl | rfl |
      rfl | rfl | rfl | rfl | rfl
    exacts [⟨"May be used for commercial purposes", rfl⟩,
      ⟨"May be distributed", rfl⟩,
      ⟨"May be modified", rfl⟩,
      ⟨"Provides an express grant of patent rights from contributors", rfl⟩,
      ⟨"May be used for private purposes", rfl⟩,
      ⟨"Source code must be made available when the software is distributed", rfl⟩,
      ⟨"Changes made to the code must be documented", rfl⟩,
      ⟨"The license and copyright notice must be included with the software", rfl⟩,
      ⟨"Users who interact with the software via network are given the right to receive a copy of the source code", rfl⟩,
      ⟨"Modifications must be released under the same license", rfl⟩,
      ⟨"Includes a limitation of liability", rfl⟩,
      ⟨"Does not grant trademark rights", rfl⟩,
      ⟨"Does not provide any warranty", rfl⟩,
      ⟨"Does not provide any rights in the patents of contributors", rfl⟩]
  · rfl

set_option maxRecDepth 8000 in
/-- Witness for C8: the distribution bullet line decomposes as "- ", a
middle text, and ".\n". -/
theorem fact_lines_bullet_form_witness :
    ∃ mid, "- May be distributed.\n" = "- " ++ mid ++ ".\n" :=
  fact_lines_bullet_form.1 "- May be distributed.\n" (by decide)

set_option maxHeartbeats 2000000 in
/-- C5: each fact group is a pure value type: its boolean equality test
agrees with propositional equality (decidable equality), equal values have
equal hashes, and the derived lexicographic field-order comparison `cmp` is
a total order: it returns `eq` exactly on equal values (so it is
reflexive), it is antisymmetric (swapping arguments swaps the ordering),
transitive, and total. -/
theorem fact_groups_are_ordered_value_types :
    (∀ a b : Permissions, (a == b) = true ↔ a = b) ∧
    (∀ a b : Permissions, a = b → hash a = hash b) ∧
    (∀ a b : Permissions, a.cmp b = Ordering.eq ↔ a = b) ∧
    (∀ a b : Permissions, (a.cmp b).swap = b.cmp a) ∧
    (∀ a b c : Permissions,
      a.cmp b ≠ Ordering.gt → b.cmp c ≠ Ordering.gt → a.cmp c ≠ Ordering.gt) ∧
    (∀ a b : Permissions, a.cmp b ≠ Ordering.gt ∨ b.cmp a ≠ Ordering.gt) ∧
    (∀ a b : Conditions, (a == b) = true ↔ a = b) ∧
    (∀ a b : Conditions, a = b → hash a = hash b) ∧
    (∀ a b : Conditions, a.cmp b = Ordering.eq ↔ a = b) ∧
    (∀ a b : Conditions, (a.cmp b).swap = b.cmp a) ∧
    (∀ a b c : Conditions,
      a.cmp b ≠ Ordering.gt → b.cmp c ≠ Ordering.gt → a.cmp c ≠ Ordering.gt) ∧
    (∀ a b : Conditions, a.cmp b ≠ Ordering.gt ∨ b.cmp a ≠ Ordering.gt) ∧
    (∀ a b : Limitations, (a == b) = true ↔ a = b) ∧
    (∀ a b : Limitations, a = b → hash a = hash b) ∧
    (∀ a b : Limitations, a.cmp b = Ordering.eq ↔ a = b) ∧
    (∀ a b : Limitations, (a.cmp b).swap = b.cmp a) ∧
    (∀ a b c : Limitations,
      a.cmp b ≠ Ordering.gt → b.cmp c ≠ Ordering.gt → a.cmp c ≠ Ordering.gt) ∧
    (∀ a b : Limitations, a.cmp b ≠ Ordering.gt ∨ b.cmp a ≠ Ordering.gt) := by
  refine ⟨by decide, fun a b h => congrArg hash h, by decide, by decide,
    by decide, by decide,
    by decide, fun a b h => congrArg hash h, by decide, by decide,
    by decide, by decide,
    by decide, fun a b h => congrArg hash h, by decide, by decide,
    by decide, by decide⟩

/-- Witness for C5: transitivity of the derived order at concrete
`Permissions` values. -/
theorem fact_groups_are_ordered_value_types_witness :
    Permissions.cmp ⟨false, false, false, false, false⟩
      ⟨true, true, true, true, true⟩ ≠ Ordering.gt :=
  fact_groups_are_ordered_value_types.2.2.2.2.1
    ⟨false, false, false, false, false⟩ ⟨false, true, false, false, false⟩
    ⟨true, true, true, true, true⟩ (by decide) (by decide)

end LicenseExtSpec
